import Mathlib

/-
Shallow embedding of the dataset core of the `syntrabi` backend
(`backend/app/services/dataset_service.py`, `backend/app/services/data_connectors.py`,
`backend/app/models/dataset.py`).

Modelling conventions:
* Python dict-shaped values become structures with `Option` fields; Python truthiness
  of strings/lists is modelled explicitly where the source relies on it.
* Async database/network calls are modelled by oracle parameters (`SchemaResult`,
  `LiveSource`): the functions stay pure and additionally report how many connector
  objects were constructed and how many connector network calls were performed.
* `random`-based cell generation in `_generate_sample_data` is abstracted by a
  generator parameter; only the shape and count of generated rows is modelled.
* `ConnectorType` is embedded as the union of the tags referenced by the service
  code. (The enum literally defined in `models/dataset.py` omits several referenced
  members such as `SQL_SERVER` and `TEXT_CSV` - a latent `AttributeError` at the
  module seam; the embedding models the service logic under the full tag set the
  services assume.)
* Python `int(...)`/`float(...)` literal parsing is modelled for ASCII input without
  digit underscores; `str.strip` / `str.lower` / `str.title` are modelled on the
  character list for ASCII input.
-/

namespace Syntrabi

/-- Connector type tags referenced by the services (see note in the file header). -/
inductive ConnectorType
  | csv
  | text_csv
  | postgresql
  | mysql
  | bigquery
  | snowflake
  | excel
  | json
  | rest_api
  | sql_server
  | mariadb
  | oracle
  | databricks
  | azure_databricks
  | teradata
  | web
  | odata
  | spark
  | odbc
  | jdbc
  deriving DecidableEq, Repr

/-- The `.value` string of each enum member (used in human-readable descriptions). -/
def ConnectorType.value : ConnectorType → String
  | .csv => ("csv")
  | .text_csv => ("text/csv")
  | .postgresql => ("postgresql")
  | .mysql => ("mysql")
  | .bigquery => ("bigquery")
  | .snowflake => ("snowflake")
  | .excel => ("excel")
  | .json => ("json")
  | .rest_api => ("rest_api")
  | .sql_server => ("sql_server")
  | .mariadb => ("mariadb")
  | .oracle => ("oracle")
  | .databricks => ("databricks")
  | .azure_databricks => ("azure_databricks")
  | .teradata => ("teradata")
  | .web => ("web")
  | .odata => ("odata")
  | .spark => ("spark")
  | .odbc => ("odbc")
  | .jdbc => ("jdbc")

/-- Python renders an enum member in an f-string as `ConnectorType.MEMBER`. -/
def ConnectorType.pyName : ConnectorType → String
  | .csv => ("CSV")
  | .text_csv => ("TEXT_CSV")
  | .postgresql => ("POSTGRESQL")
  | .mysql => ("MYSQL")
  | .bigquery => ("BIGQUERY")
  | .snowflake => ("SNOWFLAKE")
  | .excel => ("EXCEL")
  | .json => ("JSON")
  | .rest_api => ("REST_API")
  | .sql_server => ("SQL_SERVER")
  | .mariadb => ("MARIADB")
  | .oracle => ("ORACLE")
  | .databricks => ("DATABRICKS")
  | .azure_databricks => ("AZURE_DATABRICKS")
  | .teradata => ("TERADATA")
  | .web => ("WEB")
  | .odata => ("ODATA")
  | .spark => ("SPARK")
  | .odbc => ("ODBC")
  | .jdbc => ("JDBC")

/-- Dataset processing status (`DatasetStatus` in `models/dataset.py`). -/
inductive DatasetStatus
  | pending
  | processing
  | ready
  | error
  | refreshing
  deriving DecidableEq, Repr

/-- Python `str.strip()` (whitespace variant), over the character list. -/
def pyStrip (s : String) : String :=
  String.mk ((((s.data.dropWhile Char.isWhitespace).reverse).dropWhile
    Char.isWhitespace).reverse)

/-- Python `str.lower()` for ASCII input. -/
def pyLower (s : String) : String :=
  String.mk (s.data.map Char.toLower)

/-- Membership of a character in a string (`'.' in v`). -/
def strHasChar (s : String) (c : Char) : Bool :=
  s.data.contains c

/-- Python `str.replace(a, b)` for single-character patterns
(the source only uses `name.replace('_', ' ')`). -/
def pyReplaceChar (s : String) (a b : Char) : String :=
  String.mk (s.data.map (fun c => if c = a then b else c))

/-- UTF-8 encoding of one character. -/
def utf8Bytes (c : Char) : List UInt8 :=
  let n := c.toNat
  if n < 128 then [UInt8.ofNat n]
  else if n < 2048 then
    [UInt8.ofNat (192 + n / 64), UInt8.ofNat (128 + n % 64)]
  else if n < 65536 then
    [UInt8.ofNat (224 + n / 4096), UInt8.ofNat (128 + (n / 64) % 64),
     UInt8.ofNat (128 + n % 64)]
  else
    [UInt8.ofNat (240 + n / 262144), UInt8.ofNat (128 + (n / 4096) % 64),
     UInt8.ofNat (128 + (n / 64) % 64), UInt8.ofNat (128 + n % 64)]

/-- UTF-8 bytes of a string (Python `str.encode()`). -/
def strUTF8 (s : String) : List UInt8 :=
  (s.data.map utf8Bytes).flatten

/-- Numeric value of a list of ASCII digit characters. -/
def digitsVal (cs : List Char) : Nat :=
  cs.foldl (fun a c => 10 * a + (c.toNat - 48)) 0

/-- Python `int(v)` on a stripped string: optional sign followed by one or more
ASCII digits. Returns `none` when `int(v)` would raise `ValueError`. -/
def pyIntParse (s : String) : Option Int :=
  match s.data with
  | [] => none
  | c :: rest =>
    if c = '-' then
      if rest ≠ [] ∧ rest.all Char.isDigit then some (-(digitsVal rest : Int)) else none
    else if c = '+' then
      if rest ≠ [] ∧ rest.all Char.isDigit then some (digitsVal rest : Int) else none
    else
      if (c :: rest).all Char.isDigit then some (digitsVal (c :: rest) : Int) else none

/-- The source checks `str(int(v)) == v`: the value parses as an int and is in
canonical decimal form. -/
def pyIntCanon (v : String) : Bool :=
  match pyIntParse v with
  | some n => toString n == v
  | none => false

/-- Helper for `pyFloatTruthy`: strips one optional leading sign. -/
def stripSign : List Char → List Char
  | '+' :: rest => rest
  | '-' :: rest => rest
  | cs => cs

/-- Helper for `pyFloatTruthy`: parses `digits [ . digits ] [ (e|E) [sign] digits ]`
(or a leading-dot mantissa), returning the truthiness of the parsed value, i.e.
whether the mantissa has a nonzero digit. -/
def pyFloatNumeric (cs : List Char) : Option Bool :=
  let ip := cs.takeWhile Char.isDigit
  let rest1 := cs.dropWhile Char.isDigit
  let step : List Char × List Char :=
    match rest1 with
    | '.' :: r => (r.takeWhile Char.isDigit, r.dropWhile Char.isDigit)
    | _ => ([], rest1)
  let fp := step.1
  let rest2 := step.2
  if ip = [] ∧ fp = [] then none
  else
    let mantissaTruthy := (ip ++ fp).any (fun c => c ≠ '0')
    match rest2 with
    | [] => some mantissaTruthy
    | e :: r =>
      if e = 'e' ∨ e = 'E' then
        let r2 := stripSign r
        if r2 ≠ [] ∧ r2.all Char.isDigit then some mantissaTruthy else none
      else none

/-- Python `float(v)` on a stripped string, returning `none` when it would raise
`ValueError`, and otherwise the truthiness of the result (`bool(float(v))`).
Keywords `inf` / `infinity` / `nan` parse and are truthy. -/
def pyFloatTruthy (s : String) : Option Bool :=
  let cs := stripSign s.data
  let low := pyLower (String.mk cs)
  if low == ("inf") ∨ low == ("infinity") ∨ low == ("nan") then some true
  else pyFloatNumeric cs

/-- Helper for `pyTitle`: `prev` records whether the previous character was
alphabetic (cased). -/
def pyTitleGo : Bool → List Char → List Char
  | _, [] => []
  | prev, c :: rest =>
    let c2 := if c.isAlpha then (if prev then c.toLower else c.toUpper) else c
    c2 :: pyTitleGo c.isAlpha rest

/-- Python `str.title()` for ASCII input: uppercase every alphabetic character that
follows a non-alphabetic one, lowercase the rest. -/
def pyTitle (s : String) : String :=
  String.mk (pyTitleGo false s.data)

/-- The fixed boolean token set of `_infer_column_type`. -/
def booleanTokens : List String :=
  [("true"), ("false"), ("yes"), ("no"), ("1"), ("0"), ("y"), ("n")]

/-- Regex `^\d{4}-\d{2}-\d{2}$` of `_infer_column_type`. -/
def isDateYMD (s : String) : Bool :=
  match s.data with
  | [a, b, c, d, '-', e, f, '-', g, h] =>
    [a, b, c, d, e, f, g, h].all Char.isDigit
  | _ => false

/-- Regex `^\d{2}/\d{2}/\d{4}$` of `_infer_column_type`. -/
def isDateMDYSlash (s : String) : Bool :=
  match s.data with
  | [a, b, '/', c, d, '/', e, f, g, h] =>
    [a, b, c, d, e, f, g, h].all Char.isDigit
  | _ => false

/-- Regex `^\d{2}-\d{2}-\d{4}$` of `_infer_column_type`. -/
def isDateMDYDash (s : String) : Bool :=
  match s.data with
  | [a, b, '-', c, d, '-', e, f, g, h] =>
    [a, b, c, d, e, f, g, h].all Char.isDigit
  | _ => false

/-- Python list slicing `xs[:k]` for an arbitrary (possibly negative) `k`. -/
def pySliceTo {α : Type} (xs : List α) (k : Int) : List α :=
  if 0 ≤ k then xs.take k.toNat else xs.take (xs.length - (-k).toNat)

/-- Python `a or "Unknown error"` on an optional string field: `None` and the empty
string are falsy. -/
def pyOrUnknown (s : Option String) : String :=
  match s with
  | some v => if v == ("") then ("Unknown error") else v
  | none => ("Unknown error")

/-- Hex digit characters used by `quotePlus`. -/
def hexDigit (n : Nat) : Char :=
  (("0123456789ABCDEF").data.get? n).getD ('0')

/-- Characters `urllib.parse.quote_plus` leaves unescaped (ALWAYS_SAFE, with the
empty `safe` set). -/
def quoteSafe (b : UInt8) : Bool :=
  let c := Char.ofNat b.toNat
  c.isAlphanum ∨ c = '_' ∨ c = '.' ∨ c = '-' ∨ c = '~'

/-- `urllib.parse.quote_plus` over the UTF-8 bytes of a string: spaces become `+`,
safe bytes stay, everything else is percent-encoded with uppercase hex. -/
def quotePlus (s : String) : String :=
  String.mk (((strUTF8 s).map (fun b =>
    if b = 32 then ['+']
    else if quoteSafe b then [Char.ofNat b.toNat]
    else ['%', hexDigit (b.toNat / 16), hexDigit (b.toNat % 16)])).flatten)

/-- Base64 alphabet used by `base64.b64encode`. -/
def b64Alphabet : List Char :=
  ("ABCDEFGHIJKLMNOPQRSTUVWXYZabcdefghijklmnopqrstuvwxyz0123456789+/").data

/-- Character of the base64 alphabet at a 6-bit index. -/
def b64Char (n : Nat) : Char :=
  (b64Alphabet.get? n).getD ('A')

/-- `base64.b64encode` over a byte list (standard padding). -/
def base64Encode : List UInt8 → String
  | [] => ("")
  | [a] =>
    let x := a.toNat
    String.mk [b64Char (x / 4), b64Char ((x % 4) * 16), '=', '=']
  | [a, b] =>
    let x := a.toNat * 256 + b.toNat
    String.mk [b64Char (x / 1024), b64Char ((x / 16) % 64), b64Char ((x % 16) * 4), '=']
  | a :: b :: c :: rest =>
    let x := (a.toNat * 256 + b.toNat) * 256 + c.toNat
    String.mk [b64Char (x / 262144), b64Char ((x / 4096) % 64),
               b64Char ((x / 64) % 64), b64Char (x % 64)]
      ++ base64Encode rest

/-- Python dict assignment `d[k] = v` on an association list: overwrite an existing
key in place, otherwise append. -/
def dictSet (hs : List (String × String)) (k v : String) : List (String × String) :=
  if hs.any (fun p => p.1 == k) then
    hs.map (fun p => if p.1 == k then (k, v) else p)
  else hs ++ [(k, v)]

/-- Canonical column description of the internal schema format
(`{"name", "type", "nullable", "description"}` dicts in the source). Types are the
string tags produced by the services (`integer`, `decimal`, `boolean`, `date`,
`datetime`, `string`). -/
structure ColumnSchema where
  name : String
  type : String
  nullable : Bool
  description : String
  deriving DecidableEq, Repr

/-- Table entry of the `schema_json` document
(`{"name", "displayName", "columns", "rowCount"}`). -/
structure TableSchema where
  name : String
  displayName : String
  columns : List ColumnSchema
  rowCount : Nat
  deriving DecidableEq, Repr

/-- The `schema_json` JSON document stored on a dataset: `{"tables": [...]}`,
optionally with the placeholder `"message"` key. -/
structure SchemaJson where
  tables : List TableSchema
  message : Option String
  deriving DecidableEq, Repr

/-- The `Table` ORM record (`models/dataset.py`), restricted to the fields the
services read or write. -/
structure Table where
  dataset_id : Nat
  name : String
  display_name : String
  description : String
  columns : List ColumnSchema
  row_count : Nat
  deriving DecidableEq, Repr

/-- The opaque `connector_config` dict, restricted to the keys the connector
constructors read. Values are modelled by `Option` fields (absent key = `none`);
`sheet_name` keeps its rendered string form (the source default is the int `0`). -/
structure ConnectorConfig where
  host : Option String := none
  server : Option String := none
  database : Option String := none
  username : Option String := none
  password : Option String := none
  port : Option Nat := none
  trusted_connection : Option Bool := none
  server_hostname : Option String := none
  http_path : Option String := none
  access_token : Option String := none
  url : Option String := none
  version : Option String := none
  auth_type : Option String := none
  api_key : Option String := none
  api_key_header : Option String := none
  headers : List (String × String) := []
  connection_string : Option String := none
  dsn : Option String := none
  driver : Option String := none
  jdbc_url : Option String := none
  driver_class : Option String := none
  file_path : Option String := none
  delimiter : Option String := none
  encoding : Option String := none
  has_header : Option Bool := none
  sheet_name : Option String := none
  deriving DecidableEq, Repr

/-- The `Dataset` ORM record (`models/dataset.py`), restricted to the fields the
services read or write. `last_refresh` is an abstract timestamp. -/
structure Dataset where
  id : Nat
  name : String
  connector_type : ConnectorType
  connector_config : ConnectorConfig := {}
  status : DatasetStatus
  schema_json : Option SchemaJson := none
  sample_rows : Option (List (List String)) := none
  row_count : Option Nat := none
  error_message : Option String := none
  last_refresh : Option Nat := none
  deriving DecidableEq, Repr

/-- A constructed connector instance: the state each `__init__` in
`data_connectors.py` derives from its config (connection strings, auth headers,
file parameters). Constructors perform no network or file access. -/
inductive Connector
  | sqlServer (connection_string : String)
  | postgresql (connection_string : String)
  | mysql (connection_string : String)
  | mariadb (connection_string : String)
  | teradata (connection_string : String)
  | databricks (server_hostname http_path access_token : String)
  | spark (host : String) (port : Nat) (database : String)
  | odata (base_url version : String) (headers : List (String × String))
      (auth_type username password : String)
  | odbc (connection_string dsn driver : String)
  | jdbc (jdbc_url driver_class username password : String)
  | webapi (base_url : String) (headers : List (String × String))
      (auth_type api_key : String)
  | csvFile (file_path delimiter encoding : String) (has_header : Bool)
  | excel (file_path : String) (sheet_name : Option String)
  deriving DecidableEq, Repr

/-- `SQLServerConnector.__init__`. -/
def mkSQLServer (c : ConnectorConfig) : Connector :=
  let server := c.server.getD ("localhost")
  let database := c.database.getD ("")
  let username := c.username.getD ("")
  let password := c.password.getD ("")
  let port := c.port.getD 1433
  if c.trusted_connection.getD false then
    .sqlServer (("mssql+pyodbc://") ++ server ++ (":") ++ toString port ++ ("/")
      ++ database ++ ("?driver=ODBC+Driver+17+for+SQL+Server&trusted_connection=yes"))
  else
    .sqlServer (("mssql+pyodbc://") ++ quotePlus username ++ (":") ++ quotePlus password
      ++ ("@") ++ server ++ (":") ++ toString port ++ ("/") ++ database
      ++ ("?driver=ODBC+Driver+17+for+SQL+Server"))

/-- `PostgreSQLConnector.__init__`. -/
def mkPostgreSQL (c : ConnectorConfig) : Connector :=
  let host := c.host.getD ("localhost")
  let port := c.port.getD 5432
  let database := c.database.getD ("")
  let username := c.username.getD ("")
  let password := c.password.getD ("")
  .postgresql (("postgresql+asyncpg://") ++ quotePlus username ++ (":")
    ++ quotePlus password ++ ("@") ++ host ++ (":") ++ toString port ++ ("/")
    ++ database ++ ("?connect_timeout=10&command_timeout=30"))

/-- Connection string shared by `MySQLConnector.__init__` and
`MariaDBConnector.__init__`. -/
def mysqlConnString (c : ConnectorConfig) : String :=
  let host := c.host.getD ("localhost")
  let port := c.port.getD 3306
  let database := c.database.getD ("")
  let username := c.username.getD ("")
  let password := c.password.getD ("")
  ("mysql+aiomysql://") ++ quotePlus username ++ (":") ++ quotePlus password
    ++ ("@") ++ host ++ (":") ++ toString port ++ ("/") ++ database

/-- `MySQLConnector.__init__`. -/
def mkMySQL (c : ConnectorConfig) : Connector :=
  .mysql (mysqlConnString c)

/-- `MariaDBConnector.__init__` (same protocol as MySQL). -/
def mkMariaDB (c : ConnectorConfig) : Connector :=
  .mariadb (mysqlConnString c)

/-- `TeradataConnector.__init__`. -/
def mkTeradata (c : ConnectorConfig) : Connector :=
  let host := c.host.getD ("localhost")
  let port := c.port.getD 1025
  let database := c.database.getD ("")
  let username := c.username.getD ("")
  let password := c.password.getD ("")
  .teradata (("teradatasql://") ++ quotePlus username ++ (":") ++ quotePlus password
    ++ ("@") ++ host ++ (":") ++ toString port ++ ("/") ++ database)

/-- `DatabricksConnector.__init__`. -/
def mkDatabricks (c : ConnectorConfig) : Connector :=
  .databricks (c.server_hostname.getD ("")) (c.http_path.getD ("")) (c.access_token.getD (""))

/-- `SparkConnector.__init__`. -/
def mkSpark (c : ConnectorConfig) : Connector :=
  .spark (c.host.getD ("localhost")) (c.port.getD 10000) (c.database.getD ("default"))

/-- `ODataConnector.__init__` (injects a Basic auth header when configured). -/
def mkOData (c : ConnectorConfig) : Connector :=
  let username := c.username.getD ("")
  let password := c.password.getD ("")
  let auth := c.auth_type.getD ("none")
  let headers :=
    if auth == ("basic") then
      dictSet c.headers ("Authorization")
        (("Basic ") ++ base64Encode (strUTF8 (username ++ (":") ++ password)))
    else c.headers
  .odata (c.url.getD ("")) (c.version.getD ("4.0")) headers auth username password

/-- `ODBCConnector.__init__` (conditionally builds a connection string). -/
def mkODBC (c : ConnectorConfig) : Connector :=
  let cs := c.connection_string.getD ("")
  let dsn := c.dsn.getD ("")
  let driver := c.driver.getD ("")
  let cs2 :=
    if cs == ("") ∧ dsn ≠ ("") then ("odbc://") ++ dsn
    else if cs == ("") ∧ driver ≠ ("") then
      ("odbc://?driver=") ++ driver ++ ("&server=") ++ c.server.getD ("localhost")
        ++ ("&database=") ++ c.database.getD ("")
    else cs
  .odbc cs2 dsn driver

/-- `JDBCConnector.__init__`. -/
def mkJDBC (c : ConnectorConfig) : Connector :=
  .jdbc (c.jdbc_url.getD ("")) (c.driver_class.getD ("")) (c.username.getD (""))
    (c.password.getD (""))

/-- `WebAPIConnector.__init__` (injects bearer / api-key headers when configured). -/
def mkWebAPI (c : ConnectorConfig) : Connector :=
  let auth := c.auth_type.getD ("none")
  let api_key := c.api_key.getD ("")
  let headers :=
    if auth == ("bearer") then
      dictSet c.headers ("Authorization") (("Bearer ") ++ api_key)
    else if auth == ("api_key") then
      dictSet c.headers (c.api_key_header.getD ("X-API-Key")) api_key
    else c.headers
  .webapi (c.url.getD ("")) headers auth api_key

/-- `CSVFileConnector.__init__`. -/
def mkCSVFile (c : ConnectorConfig) : Connector :=
  .csvFile (c.file_path.getD ("")) (c.delimiter.getD (",")) (c.encoding.getD ("utf-8"))
    (c.has_header.getD true)

/-- `ExcelConnector.__init__` (`sheet_name` defaults to the first sheet). -/
def mkExcel (c : ConnectorConfig) : Connector :=
  .excel (c.file_path.getD ("")) c.sheet_name

/-- The keys of `DataConnectorFactory._connectors`, in source order. -/
def factoryTypes : List ConnectorType :=
  [.sql_server, .postgresql, .mysql, .mariadb, .teradata, .databricks,
   .azure_databricks, .csv, .text_csv, .excel, .web, .rest_api, .odata,
   .spark, .odbc, .jdbc]

/-- `DataConnectorFactory._connectors.get(connector_type)`. -/
def factoryLookup : ConnectorType → Option (ConnectorConfig → Connector)
  | .sql_server => some mkSQLServer
  | .postgresql => some mkPostgreSQL
  | .mysql => some mkMySQL
  | .mariadb => some mkMariaDB
  | .teradata => some mkTeradata
  | .databricks => some mkDatabricks
  | .azure_databricks => some mkDatabricks
  | .csv => some mkCSVFile
  | .text_csv => some mkCSVFile
  | .excel => some mkExcel
  | .web => some mkWebAPI
  | .rest_api => some mkWebAPI
  | .odata => some mkOData
  | .spark => some mkSpark
  | .odbc => some mkODBC
  | .jdbc => some mkJDBC
  | .bigquery => none
  | .snowflake => none
  | .json => none
  | .oracle => none

/-- `DataConnectorFactory.create_connector`: dict lookup, then either raise
`ValueError("Unsupported connector type: ...")` or call the constructor. -/
def create_connector (ct : ConnectorType) (cfg : ConnectorConfig) :
    Except String Connector :=
  match factoryLookup ct with
  | some mk => .ok (mk cfg)
  | none => .error (("Unsupported connector type: ConnectorType.") ++ ct.pyName)

/-- Number of network or file operations performed while creating a connector:
the factory only performs a dict lookup and every `__init__` only reads config
values and builds strings (no awaits, no sockets, no file handles), so this is 0
for every type and configuration. -/
def create_connector_io (_ct : ConnectorType) (_cfg : ConnectorConfig) : Nat := 0

/-- The stripped, non-blank sample values of column `i`
(`_infer_column_type` lines collecting `sample_values`). -/
def sample_values (sample_rows : List (List String)) (i : Nat) : List String :=
  sample_rows.filterMap (fun row =>
    match row.get? i with
    | some v => if pyStrip v ≠ ("") then some (pyStrip v) else none
    | none => none)

/-- `DatasetService._infer_column_type`. The four numeric/boolean/date checks are
translated with Python try/except semantics: a branch yields its type exactly when
every sample value passes it; a `ValueError` inside `all(...)` and an early `False`
both fall through to the next branch. `float(v)` truthiness means the value is
nonzero. -/
def infer_column_type (sample_rows : List (List String)) (i : Nat) : String :=
  if sample_rows.isEmpty then ("string")
  else
    let vs := sample_values sample_rows i
    if vs.isEmpty then ("string")
    else if vs.all pyIntCanon then ("integer")
    else if vs.all (fun v => strHasChar v '.' && pyFloatTruthy v == some true) then ("decimal")
    else if vs.all (fun v => pyFloatTruthy v == some true) then ("decimal")
    else if vs.all (fun v => booleanTokens.contains (pyLower v)) then ("boolean")
    else if vs.all isDateYMD then ("date")
    else if vs.all isDateMDYSlash then ("date")
    else if vs.all isDateMDYDash then ("date")
    else ("string")

/-- The outcome of `DatasetService._process_csv_data`: the mutated dataset, the
`Table` record added to the session (if any), and whether the call raised. -/
structure CsvOut where
  dataset : Dataset
  newTable : Option Table
  result : Except String Unit
  deriving Repr

/-- `DatasetService._process_csv_data`, starting from the rows produced by
`csv.reader` (the UTF-8 decoding and CSV tokenisation of the upload are outside
the model): `headers` is the first row, `rows` the remaining ones. The first 100
rows are sampled for inference, the stored preview keeps the first 10, `row_count`
counts all data rows. On empty headers the dataset is marked ERROR and the
`ValueError` propagates. -/
def process_csv_data (d : Dataset) (headers : List String) (rows : List (List String)) :
    CsvOut :=
  if headers.isEmpty then
    let msg := ("CSV file is empty or has no headers")
    ⟨{ d with status := .error, error_message := some msg }, none, .error msg⟩
  else
    let sample := rows.take 100
    let row_count := rows.length
    let columns : List ColumnSchema := headers.enum.map (fun ih =>
      let colType := infer_column_type sample ih.1
      { name := pyStrip ih.2, type := colType, nullable := true,
        description := pyTitle colType ++ (" column") })
    let tblSchema : TableSchema :=
      { name := d.name, displayName := d.name, columns := columns, rowCount := row_count }
    let tblRec : Table :=
      { dataset_id := d.id, name := d.name, display_name := d.name,
        description := ("Table for ") ++ d.name, columns := columns,
        row_count := row_count }
    ⟨{ d with
        schema_json := some { tables := [tblSchema], message := none },
        row_count := some row_count,
        sample_rows := some (sample.take 10),
        status := .ready },
      some tblRec, .ok ()⟩

/-- A column entry of a connector `get_schema` result (`{"name","type","nullable"}`;
`nullable` carries the `col.get('nullable', True)` default already applied). -/
structure RawColumn where
  name : String
  type : String
  nullable : Bool := true
  deriving DecidableEq, Repr

/-- A table entry of a connector `get_schema` result. `schemaName` models the
optional `"schema"` key (`table_info.get('schema', 'public')`). -/
structure RawTable where
  schemaName : Option String := none
  name : String
  columns : List RawColumn
  deriving DecidableEq, Repr

/-- Oracle for `connector.get_schema(...)`: the dict either carries an `"error"`
key or a (possibly empty) `"tables"` list. -/
structure SchemaResult where
  error : Option String := none
  tables : List RawTable := []
  deriving DecidableEq, Repr

/-- The static native-type lookup table shared by `fetch_and_cache_schema` and
`_create_sample_schema` (both copies in the source are identical). -/
def typeMapping : List (String × String) :=
  [(("integer"), ("integer")), (("bigint"), ("integer")), (("smallint"), ("integer")),
   (("numeric"), ("decimal")), (("decimal"), ("decimal")), (("real"), ("decimal")),
   (("double precision"), ("decimal")), (("money"), ("decimal")),
   (("character varying"), ("string")), (("varchar"), ("string")),
   (("character"), ("string")), (("char"), ("string")), (("text"), ("string")),
   (("boolean"), ("boolean")), (("date"), ("date")),
   (("timestamp"), ("datetime")), (("timestamp without time zone"), ("datetime")),
   (("timestamp with time zone"), ("datetime")), (("time"), ("datetime")),
   (("json"), ("string")), (("jsonb"), ("string")), (("uuid"), ("string"))]

/-- Maps a native column type to a canonical tag: lower-case, strip a parenthesized
precision suffix, look up with default `string`
(`type_mapping.get(base_type, 'string')`). -/
def mapNativeType (t : String) : String :=
  let base := pyStrip (((pyLower t).splitOn ("(")).headD (""))
  ((typeMapping.find? (fun p => p.1 == base)).map (fun p => p.2)).getD ("string")

/-- Conversion of one raw schema column into the internal column format. -/
def convertRawColumn (c : RawColumn) : ColumnSchema :=
  let mapped := mapNativeType c.type
  { name := c.name, type := mapped, nullable := c.nullable,
    description := pyTitle mapped ++ (" column") }

/-- Conversion of one raw schema table into the internal table format
(`"{schema}.{name}"` naming, title-cased display name, `rowCount = 0`). -/
def convertRawTable (t : RawTable) : TableSchema :=
  { name := t.schemaName.getD ("public") ++ (".") ++ t.name,
    displayName := pyTitle (pyReplaceChar t.name '_' ' '),
    columns := t.columns.map convertRawColumn,
    rowCount := 0 }

/-- The cached-schema guard of `fetch_and_cache_schema`: a schema dict is present,
its `tables` list is non-empty, and the placeholder `message` key is absent or
falsy. -/
def schemaPopulated (d : Dataset) : Bool :=
  match d.schema_json with
  | some sj => !sj.tables.isEmpty && (sj.message.getD ("") == (""))
  | none => false

/-- Outcome of `fetch_and_cache_schema` / `_create_sample_schema`: the mutated
dataset, the session `Table` records, whether the call raised (with the message of
the propagated exception), and how many connector objects were constructed and
connector network calls performed. -/
structure FetchOut where
  dataset : Dataset
  tables : List Table
  result : Except String Unit
  created : Nat
  calls : Nat
  deriving Repr

/-- `DatasetService.fetch_and_cache_schema`. `tbls` is the set of `Table` rows
visible to the duplicate check (the session autoflushes, so rows added earlier in
the loop are visible). On any failure the dataset is marked ERROR with
`"Failed to fetch schema: " ++ <message of the propagated exception>` (the outer
handler re-prefixes the message raised by the error-dict branch, doubling it). -/
def fetch_and_cache_schema (d : Dataset) (tbls : List Table) (oracle : SchemaResult) :
    FetchOut :=
  if schemaPopulated d then ⟨d, tbls, .ok (), 0, 0⟩
  else
    match create_connector d.connector_type d.connector_config with
    | .error e =>
      ⟨{ d with status := .error,
                error_message := some (("Failed to fetch schema: ") ++ e) },
        tbls, .error e, 0, 0⟩
    | .ok _ =>
      match oracle.error with
      | some err =>
        let msg := ("Failed to fetch schema: ") ++ err
        ⟨{ d with status := .error,
                  error_message := some (("Failed to fetch schema: ") ++ msg) },
          tbls, .error msg, 1, 1⟩
      | none =>
        if oracle.tables.isEmpty then
          let msg := ("No tables found in database. Please check your database connection and permissions.")
          ⟨{ d with status := .error,
                    error_message := some (("Failed to fetch schema: ") ++ msg) },
            tbls, .error msg, 1, 1⟩
        else
          let converted := oracle.tables.map convertRawTable
          let newTbls := converted.foldl (fun acc ts =>
            if acc.any (fun r => r.dataset_id == d.id && r.name == ts.name) then acc
            else acc ++ [{ dataset_id := d.id, name := ts.name,
                           display_name := ts.displayName,
                           description := ("Table from ") ++ d.connector_type.value
                             ++ (" connection"),
                           columns := ts.columns, row_count := 0 }]) tbls
          ⟨{ d with schema_json := some { tables := converted, message := none },
                    status := .ready, error_message := none },
            newTbls, .ok (), 1, 1⟩

/-- The fabricated `users` table of the PostgreSQL fallback sample schema. -/
def sampleUsersTable : TableSchema :=
  { name := ("users"), displayName := ("Users"),
    columns :=
      [{ name := ("user_id"), type := ("integer"), nullable := false,
         description := ("User ID") },
       { name := ("username"), type := ("string"), nullable := false,
         description := ("Username") },
       { name := ("email"), type := ("string"), nullable := false,
         description := ("Email address") },
       { name := ("created_at"), type := ("datetime"), nullable := false,
         description := ("Creation date") },
       { name := ("is_active"), type := ("boolean"), nullable := false,
         description := ("Active status") },
       { name := ("profile_score"), type := ("decimal"), nullable := true,
         description := ("Profile score") }],
    rowCount := 15000 }

/-- The fabricated `orders` table of the PostgreSQL fallback sample schema. -/
def sampleOrdersTable : TableSchema :=
  { name := ("orders"), displayName := ("Orders"),
    columns :=
      [{ name := ("order_id"), type := ("integer"), nullable := false,
         description := ("Order ID") },
       { name := ("user_id"), type := ("integer"), nullable := false,
         description := ("User ID") },
       { name := ("product_name"), type := ("string"), nullable := false,
         description := ("Product name") },
       { name := ("quantity"), type := ("integer"), nullable := false,
         description := ("Quantity ordered") },
       { name := ("price"), type := ("decimal"), nullable := false,
         description := ("Unit price") },
       { name := ("order_date"), type := ("date"), nullable := false,
         description := ("Order date") },
       { name := ("status"), type := ("string"), nullable := false,
         description := ("Order status") }],
    rowCount := 45000 }

/-- The fabricated `products` table of the MySQL fallback sample schema. -/
def sampleProductsTable : TableSchema :=
  { name := ("products"), displayName := ("Products"),
    columns :=
      [{ name := ("product_id"), type := ("integer"), nullable := false,
         description := ("Product ID") },
       { name := ("product_name"), type := ("string"), nullable := false,
         description := ("Product name") },
       { name := ("category"), type := ("string"), nullable := false,
         description := ("Product category") },
       { name := ("price"), type := ("decimal"), nullable := false,
         description := ("Product price") },
       { name := ("stock_quantity"), type := ("integer"), nullable := false,
         description := ("Stock quantity") },
       { name := ("supplier_id"), type := ("integer"), nullable := true,
         description := ("Supplier ID") },
       { name := ("last_updated"), type := ("datetime"), nullable := false,
         description := ("Last update time") }],
    rowCount := 2500 }

/-- The fabricated `analytics_events` table of the BigQuery fallback sample
schema. -/
def sampleAnalyticsTable : TableSchema :=
  { name := ("analytics_events"), displayName := ("Analytics Events"),
    columns :=
      [{ name := ("event_timestamp"), type := ("datetime"), nullable := false,
         description := ("Event timestamp") },
       { name := ("user_id"), type := ("string"), nullable := false,
         description := ("User ID") },
       { name := ("session_id"), type := ("string"), nullable := false,
         description := ("Session ID") },
       { name := ("event_name"), type := ("string"), nullable := false,
         description := ("Event name") },
       { name := ("event_value"), type := ("decimal"), nullable := true,
         description := ("Event value") },
       { name := ("user_properties"), type := ("string"), nullable := true,
         description := ("User properties JSON") },
       { name := ("device_category"), type := ("string"), nullable := true,
         description := ("Device category") }],
    rowCount := 1200000 }

/-- `sample_schemas.get(connector_type, {"tables": []})` of
`_create_sample_schema`: fabricated schemas for PostgreSQL / MySQL / BigQuery,
an empty table list for every other type. -/
def sampleSchemas (ct : ConnectorType) : SchemaJson :=
  match ct with
  | .postgresql => { tables := [sampleUsersTable, sampleOrdersTable], message := none }
  | .mysql => { tables := [sampleProductsTable], message := none }
  | .bigquery => { tables := [sampleAnalyticsTable], message := none }
  | _ => { tables := [], message := none }

/-- `DatasetService._create_sample_schema`: tries a real schema fetch; any inner
failure (unsupported type, error result, empty table list) silently falls through
to the fabricated `sample_schemas` fallback, and the dataset always ends READY. -/
def create_sample_schema (d : Dataset) (tbls : List Table) (ct : ConnectorType)
    (oracle : SchemaResult) : FetchOut :=
  let eff : Nat × Nat :=
    match create_connector ct d.connector_config with
    | .ok _ => (1, 1)
    | .error _ => (0, 0)
  let fetched : Option (List RawTable) :=
    match create_connector ct d.connector_config with
    | .error _ => none
    | .ok _ =>
      match oracle.error with
      | some _ => none
      | none => if oracle.tables.isEmpty then none else some oracle.tables
  match fetched with
  | some raws =>
    let converted := raws.map convertRawTable
    let newTbls := tbls ++ converted.map (fun ts =>
      ({ dataset_id := d.id, name := ts.name, display_name := ts.displayName,
         description := ("Table from ") ++ ct.value ++ (" connection"),
         columns := ts.columns, row_count := 0 } : Table))
    ⟨{ d with schema_json := some { tables := converted, message := none },
              row_count := some 0, status := .ready },
      newTbls, .ok (), eff.1, eff.2⟩
  | none =>
    let sj := sampleSchemas ct
    let newTbls := tbls ++ sj.tables.map (fun ts =>
      ({ dataset_id := d.id, name := ts.name, display_name := ts.displayName,
         description := ("Table ") ++ ts.displayName ++ (" from ") ++ ct.value
           ++ (" connection"),
         columns := ts.columns, row_count := ts.rowCount } : Table))
    ⟨{ d with schema_json := some sj,
              row_count := some (sj.tables.foldl (fun a t => a + t.rowCount) 0),
              status := .ready },
      newTbls, .ok (), eff.1, eff.2⟩

/-- A result row: the CSV path returns raw `csv.reader` rows (lists of cell
strings), the live and synthetic paths return dict rows (cell values rendered as
strings). -/
inductive PyRow
  | strs (cells : List String)
  | record (fields : List (String × String))
  deriving DecidableEq, Repr

/-- The query parameters dict passed to `query_dataset` (`.get` defaults are
applied inside the functions; a `table_name` key may be present but falsy). -/
structure QueryParams where
  table_name : Option String := none
  columns : Option (List String) := none
  limit : Option Int := none
  deriving DecidableEq, Repr

/-- The response of `query_dataset`: `data` rows, `(name, type)` column pairs and
`total_rows` (`execution_time` wall-clock measurement is outside the model). -/
structure QueryResult where
  data : List PyRow
  columns : List (String × String)
  total_rows : Nat
  deriving DecidableEq, Repr

/-- Oracle for the live relational backend used by `connector.execute_query`:
`error` models a failed execution (the connector returns an `"error"` dict),
`rows` the rows of the queried table and `columns` the result column names. -/
structure LiveSource where
  error : Option String := none
  rows : List PyRow := []
  columns : List String := []
  deriving Repr

/-- The backend executing `SELECT ... LIMIT {limit}`: a negative literal is a SQL
error (the connector catches it and returns an error dict), otherwise at most
`limit` rows come back. -/
def dbApplyLimit (rows : List PyRow) (limit : Int) : Except String (List PyRow) :=
  if limit < 0 then .error ("LIMIT must not be negative")
  else .ok (rows.take limit.toNat)

/-- Result of `DatasetService._generate_sample_data`. -/
structure SampleData where
  rows : List PyRow
  columns : List (String × String)
  total_rows : Nat
  deriving Repr

/-- `DatasetService._generate_sample_data`: `min(limit, 1000)` synthetic rows
shaped by the first table of the cached schema (or an empty result when the schema
is missing or has no tables). The `random`-based cell values are abstracted by the
generator `gen`. -/
def generate_sample_data (d : Dataset) (p : QueryParams)
    (gen : ColumnSchema → Nat → String) : SampleData :=
  match d.schema_json with
  | none => ⟨[], [], 0⟩
  | some sj =>
    match sj.tables with
    | [] => ⟨[], [], 0⟩
    | t :: _ =>
      let cols := t.columns
      let sample_count : Int := min (p.limit.getD 100) 1000
      let rows := (List.range sample_count.toNat).map (fun i =>
        PyRow.record (cols.map (fun c => (c.name, gen c i))))
      ⟨rows, cols.map (fun c => (c.name, c.type)), rows.length⟩

/-- The connector types handled by the CSV branch of `query_dataset`. -/
def csvTypes : List ConnectorType := [.csv, .text_csv]

/-- The connector types handled by the live-database branch of `query_dataset`. -/
def liveTypes : List ConnectorType := [.postgresql, .mysql, .bigquery, .snowflake]

/-- The CSV branch of `query_dataset`: slice the stored sample rows to the
requested limit (Python slice semantics), take columns from the cached schema when
it has tables; with no schema tables, a non-empty slice crashes on
`data[0].keys()` (sample rows are lists, not dicts) and the exception propagates. -/
def csv_query (d : Dataset) (p : QueryParams) : Except String QueryResult :=
  match d.sample_rows with
  | some rows =>
    if rows.isEmpty then
      .error ("No data available for CSV dataset. The CSV may not have been processed correctly.")
    else
      let limit := p.limit.getD 100
      let data := pySliceTo rows limit
      let schemaCols : Option (List (String × String)) :=
        match d.schema_json with
        | some sj =>
          if sj.tables.isEmpty then none
          else some (((sj.tables.headD ⟨(""), (""), [], 0⟩).columns).map
            (fun c => (c.name, c.type)))
        | none => none
      match schemaCols with
      | some cols => .ok ⟨data.map .strs, cols, data.length⟩
      | none =>
        if data.isEmpty then .ok ⟨data.map .strs, [], 0⟩
        else .error ("AttributeError: list object has no attribute keys")
  | none =>
    .error ("No data available for CSV dataset. The CSV may not have been processed correctly.")

/-- Outcome of `query_dataset`: the result (or propagated exception), the mutated
dataset and `Table` rows (a live-path schema fetch mutates them), and the number
of connector objects constructed and connector network calls performed. -/
structure QueryOut where
  result : Except String QueryResult
  dataset : Dataset
  tables : List Table
  created : Nat
  calls : Nat
  deriving Repr

/-- The tail of the live-database branch of `query_dataset` once the schema is
cached and the connector exists: resolve the table name (an explicit truthy
`table_name` wins, else the first table of the cached schema), then execute
`SELECT ... LIMIT {limit}` through the connector oracle. The second component
counts `execute_query` network calls (0 when no table could be resolved). -/
def live_execute (d1 : Dataset) (p : QueryParams) (live : LiveSource) :
    Except String QueryResult × Nat :=
  let tn0 : Option String :=
    match p.table_name with
    | some s => if s == ("") then none else some s
    | none => none
  let tnSchema : Option String :=
    match d1.schema_json with
    | some sj =>
      match sj.tables with
      | t :: _ => some t.name
      | [] => none
    | none => none
  match tn0.orElse (fun _ => tnSchema) with
  | none => (.error ("No table specified and no tables found in dataset schema."), 0)
  | some _tn =>
    let limit := p.limit.getD 100
    match live.error with
    | some e => (.error (("Query execution failed: ") ++ e), 1)
    | none =>
      match dbApplyLimit live.rows limit with
      | .error e => (.error (("Query execution failed: ") ++ e), 1)
      | .ok data =>
        (.ok ⟨data, live.columns.map (fun c => (c, ("string"))), data.length⟩, 1)

/-- The live-database branch of `query_dataset`: ensure the schema is cached
(failures propagate), create a connector (BigQuery/Snowflake are not in the
factory registry, so the `ValueError` propagates), then run `live_execute`. -/
def live_query (d : Dataset) (tbls : List Table) (p : QueryParams)
    (oracle : SchemaResult) (live : LiveSource) : QueryOut :=
  let f := fetch_and_cache_schema d tbls oracle
  match f.result with
  | .error e => ⟨.error e, f.dataset, f.tables, f.created, f.calls⟩
  | .ok _ =>
    let d1 := f.dataset
    match create_connector d1.connector_type d1.connector_config with
    | .error e => ⟨.error e, d1, f.tables, f.created, f.calls⟩
    | .ok _ =>
      let r := live_execute d1 p live
      ⟨r.1, d1, f.tables, f.created + 1, f.calls + r.2⟩

/-- `DatasetService.query_dataset` (the dataset is passed directly; the not-found
lookup is outside the model). Branch order as in the source: ERROR fail-fast,
CSV sample path, live database path, synthetic sample fallback. -/
def query_dataset (d : Dataset) (tbls : List Table) (p : QueryParams)
    (oracle : SchemaResult) (live : LiveSource)
    (gen : ColumnSchema → Nat → String) : QueryOut :=
  if d.status = .error then
    ⟨.error (("Dataset is in error state: ") ++ pyOrUnknown d.error_message),
      d, tbls, 0, 0⟩
  else if csvTypes.contains d.connector_type then
    ⟨csv_query d p, d, tbls, 0, 0⟩
  else if liveTypes.contains d.connector_type then
    live_query d tbls p oracle live
  else
    let s := generate_sample_data d p gen
    ⟨.ok ⟨s.rows, s.columns, s.total_rows⟩, d, tbls, 0, 0⟩

/-- `DatasetService.refresh_dataset` on a found dataset: bump `last_refresh` to the
current time and force status READY, for every connector type alike. The second
component counts connector operations performed (the source performs none: no
re-parse and no schema re-discovery happen on refresh). -/
def refresh_dataset (now : Nat) (d : Dataset) : Dataset × Nat :=
  ({ d with last_refresh := some now, status := .ready }, 0)

/-- The persistent store as the services see it: `datasets` and dependent
`tables` rows (`tables.dataset_id` references `datasets.id`). -/
structure DBState where
  datasets : List Dataset
  tables : List Table
  deriving Repr

/-- `DatasetService.delete_dataset`: a bulk `DELETE FROM datasets WHERE id = ...`.
The ORM-level `cascade="all, delete-orphan"` of `Dataset.tables` does not apply to
bulk deletes, and the `tables.dataset_id` foreign key declares no `ON DELETE`
action, so when dependent `Table` rows exist the statement violates the foreign
key: the exception is caught, the transaction rolls back and the function returns
`False` with the store unchanged. Otherwise the dataset row is removed and the
function returns `rowcount > 0`. -/
def delete_dataset (st : DBState) (dataset_id : Nat) : Bool × DBState :=
  if st.tables.any (fun t => t.dataset_id == dataset_id) then
    (false, st)
  else
    let deleted := st.datasets.any (fun d => d.id == dataset_id)
    (deleted, { st with datasets := st.datasets.filter (fun d => d.id ≠ dataset_id) })

/-- Connector variants whose implementations perform real I/O (SQL engines through
SQLAlchemy, files through pandas/aiofiles). The remaining variants declare
themselves unimplemented: their operations return stub notes (Teradata,
Databricks, Spark, OData, ODBC, JDBC) or raise a not-implemented error
(Web / REST API). -/
def implementedTypes : List ConnectorType :=
  [.sql_server, .postgresql, .mysql, .mariadb, .csv, .text_csv, .excel]

/-- A fresh CSV dataset as `create_dataset` builds it before processing. -/
def csvDemoDataset : Dataset :=
  { id := 7, name := ("scores"), connector_type := .csv, status := .processing }

/-- A live PostgreSQL dataset whose schema is already cached (non-placeholder). -/
def liveDemoDataset : Dataset :=
  { id := 3, name := ("pg"), connector_type := .postgresql, status := .ready,
    schema_json := some { tables :=
      [{ name := ("public.events"), displayName := ("Events"),
         columns := [{ name := ("id"), type := ("integer"), nullable := true,
                       description := ("Integer column") }],
         rowCount := 0 }], message := none } }

/-- A live PostgreSQL dataset with no cached schema yet. -/
def unpopulatedLiveDataset : Dataset :=
  { id := 4, name := ("pg2"), connector_type := .postgresql, status := .ready }

/-- A live PostgreSQL dataset holding the deferred-schema placeholder. -/
def placeholderLiveDataset : Dataset :=
  { id := 5, name := ("pg3"), connector_type := .postgresql, status := .ready,
    schema_json := some { tables := [],
                          message := some ("Schema will be loaded when you access the dataset") } }

/-- A dataset already in the ERROR state with a stored message. -/
def errDemoDataset : Dataset :=
  { id := 6, name := ("bad"), connector_type := .postgresql, status := .error,
    error_message := some ("Failed to fetch schema: connection refused") }

/-- An Excel dataset with a one-column cached schema (query falls through to the
synthetic sample path for this type). -/
def synthDemoDataset : Dataset :=
  { id := 9, name := ("xl"), connector_type := .excel, status := .ready,
    schema_json := some { tables :=
      [{ name := ("sheet1"), displayName := ("Sheet1"),
         columns := [{ name := ("c"), type := ("string"), nullable := true,
                       description := ("String column") }],
         rowCount := 0 }], message := none } }

/-- The dataset produced by ingesting a one-column CSV with rows `1` and `2`. -/
def csvReadyDataset : Dataset :=
  (process_csv_data csvDemoDataset [("a")] [[("1")], [("2")]]).dataset

/-- A schema oracle reporting a connection failure. -/
def errOracle : SchemaResult := { error := some ("connection refused") }

/-- A live backend whose queried table holds 1001 rows. -/
def wideLiveSource : LiveSource :=
  { error := none, rows := List.replicate 1001 (PyRow.record []), columns := [("id")] }

/-- A store with one dataset owning one dependent `Table` row. -/
def demoState : DBState :=
  { datasets := [{ id := 1, name := ("d"), connector_type := .csv, status := .ready }],
    tables := [{ dataset_id := 1, name := ("t"), display_name := ("t"),
                 description := ("Table for d"), columns := [], row_count := 2 }] }

/-- Helper: a Python slice `xs[:k]` is never longer than `xs`. -/
theorem pySliceTo_length_le {α : Type} (xs : List α) (k : Int) :
    (pySliceTo xs k).length ≤ xs.length := by
  unfold pySliceTo
  split <;> simp [List.length_take]

/-- Helper: for a nonnegative `k`, a Python slice `xs[:k]` has at most `k`
elements. -/
theorem pySliceTo_length_le_toNat {α : Type} (xs : List α) (k : Int) (h : 0 ≤ k) :
    (pySliceTo xs k).length ≤ k.toNat := by
  unfold pySliceTo
  rw [if_pos h]
  simp [List.length_take]

/-- Helper: a successful CSV-branch query returns no more rows than the stored
sample. -/
theorem csv_query_total_le (d : Dataset) (p : QueryParams) (res : QueryResult)
    (h : csv_query d p = Except.ok res) :
    res.total_rows ≤ (d.sample_rows.getD []).length := by
  unfold csv_query at h
  cases hs : d.sample_rows with
  | none => simp [hs] at h
  | some rows =>
    simp only [hs] at h
    by_cases he : rows.isEmpty
    · simp [he] at h
    · simp only [he, Bool.false_eq_true, if_false] at h
      split at h
      · rw [Except.ok.injEq] at h
        subst h
        simpa [hs] using pySliceTo_length_le rows (p.limit.getD 100)
      · split at h
        · rw [Except.ok.injEq] at h
          subst h
          simp
        · exact absurd h (by simp)

/-- Helper: with a nonnegative supplied limit, a successful CSV-branch query
returns at most `limit` rows. -/
theorem csv_query_total_le_limit (d : Dataset) (p : QueryParams) (l : Int)
    (res : QueryResult) (hl : p.limit = some l) (hnn : 0 ≤ l)
    (h : csv_query d p = Except.ok res) :
    res.total_rows ≤ l.toNat := by
  unfold csv_query at h
  cases hs : d.sample_rows with
  | none => simp [hs] at h
  | some rows =>
    simp only [hs] at h
    by_cases he : rows.isEmpty
    · simp [he] at h
    · simp only [he, Bool.false_eq_true, if_false] at h
      split at h
      · rw [Except.ok.injEq] at h
        subst h
        simpa [hl] using pySliceTo_length_le_toNat rows l hnn
      · split at h
        · rw [Except.ok.injEq] at h
          subst h
          simp
        · exact absurd h (by simp)

/-- Helper: a successful `live_execute` returns at most `limit` rows (the limit is
enforced only through the SQL `LIMIT` clause the backend applies). -/
theorem live_execute_total_le (d1 : Dataset) (p : QueryParams) (live : LiveSource)
    (l : Int) (res : QueryResult) (hl : p.limit = some l)
    (h : (live_execute d1 p live).1 = Except.ok res) :
    res.total_rows ≤ l.toNat := by
  unfold live_execute at h
  repeat' split at h
  any_goals simp at h
  all_goals
    cases hdb : dbApplyLimit live.rows (p.limit.getD 100) with
    | error e =>
      rw [hdb] at h
      simp at h
    | ok data =>
      rw [hdb] at h
      have h2 : Except.ok
          (⟨data, live.columns.map (fun c => (c, ("string"))), data.length⟩ : QueryResult)
          = Except.ok res := h
      rw [Except.ok.injEq] at h2
      subst h2
      unfold dbApplyLimit at hdb
      split at hdb
      · exact absurd hdb (by simp)
      · rw [Except.ok.injEq] at hdb
        subst hdb
        simp [hl, List.length_take]

/-- Helper: a successful live-branch query returns at most `limit` rows. -/
theorem live_query_total_le (d : Dataset) (tbls : List Table) (p : QueryParams)
    (oracle : SchemaResult) (live : LiveSource) (l : Int) (res : QueryResult)
    (hl : p.limit = some l)
    (h : (live_query d tbls p oracle live).result = Except.ok res) :
    res.total_rows ≤ l.toNat := by
  unfold live_query at h
  dsimp only at h
  split at h
  · simp at h
  · split at h
    · simp at h
    · exact live_execute_total_le _ p live l res hl (by simpa using h)

/-- Helper: the synthetic sample generator produces at most `min(limit, 1000)`
rows. -/
theorem generate_sample_total (d : Dataset) (p : QueryParams)
    (gen : ColumnSchema → Nat → String) :
    (generate_sample_data d p gen).total_rows ≤ (min (p.limit.getD 100) 1000).toNat := by
  unfold generate_sample_data
  split
  · simp
  · split
    · simp
    · simp [List.length_range]

set_option maxRecDepth 100000 in
/-- C1 counterexample: on the live database path the requested limit is forwarded
to the backend unchanged and no 1000 cap is applied, so a query with limit 1001
against a 1001-row table returns 1001 rows, refuting
`total_rows ≤ min(requested_limit, 1000)`. -/
theorem query_limit_cap_counterexample :
    ∃ res, (query_dataset liveDemoDataset [] { limit := some 1001 } {} wideLiveSource
        (fun _ _ => ("x"))).result = Except.ok res ∧
      ¬((res.total_rows : Int) ≤ min (1001 : Int) 1000) := by
  refine ⟨⟨List.replicate 1001 (PyRow.record []), [(("id"), ("string"))], 1001⟩, ?_, by decide⟩
  rfl

/-- C1 (amended): for every dataset and query with a nonnegative supplied limit, a
successful `query_dataset` returns at most `limit` rows on every path; the
additional hard cap of 1000 holds only on the synthetic sample path (neither the
CSV sample path, which is instead bounded by the stored sample, nor the live
database path, which relies solely on the SQL `LIMIT` clause, apply it). -/
theorem query_row_bound_amended :
    ∀ d tbls p oracle live gen l res,
      p.limit = some l → 0 ≤ l →
      (query_dataset d tbls p oracle live gen).result = Except.ok res →
      ((res.total_rows : Int) ≤ l ∧
        (csvTypes.contains d.connector_type = false →
         liveTypes.contains d.connector_type = false →
         res.total_rows ≤ 1000)) := by
  intro d tbls p oracle live gen l res hl hnn h
  have cast_le : ∀ n : Nat, n ≤ l.toNat → (n : Int) ≤ l := by
    intro n hn
    calc (n : Int) ≤ (l.toNat : Int) := by exact_mod_cast hn
      _ = l := Int.toNat_of_nonneg hnn
  by_cases hst : d.status = DatasetStatus.error
  · simp [query_dataset, hst] at h
  · by_cases hcsv : d.connector_type ∈ csvTypes
    · have h2 : csv_query d p = Except.ok res := by
        simpa [query_dataset, hst, hcsv] using h
      refine ⟨cast_le _ (csv_query_total_le_limit d p l res hl hnn h2), ?_⟩
      intro hc _
      have : csvTypes.contains d.connector_type = true := by simpa using hcsv
      rw [this] at hc
      exact absurd hc (by simp)
    · by_cases hlive : d.connector_type ∈ liveTypes
      · have h2 : (live_query d tbls p oracle live).result = Except.ok res := by
          simpa [query_dataset, hst, hcsv, hlive] using h
        refine ⟨cast_le _ (live_query_total_le d tbls p oracle live l res hl h2), ?_⟩
        intro _ hc
        have : liveTypes.contains d.connector_type = true := by simpa using hlive
        rw [this] at hc
        exact absurd hc (by simp)
      · have h2 : res = ⟨(generate_sample_data d p gen).rows,
            (generate_sample_data d p gen).columns,
            (generate_sample_data d p gen).total_rows⟩ := by
          have := h
          simp [query_dataset, hst, hcsv, hlive] at this
          exact this.symm
        have hb := generate_sample_total d p gen
        rw [hl] at hb
        have htot : res.total_rows ≤ (min l 1000).toNat := by rw [h2]; exact hb
        constructor
        · exact cast_le _ (le_trans htot (Int.toNat_le_toNat (min_le_left l 1000)))
        · intro _ _
          exact le_trans htot (Int.toNat_le_toNat (min_le_right l 1000))

/-- C1 witness: the amended bound applied on the synthetic path at limit 5. -/
theorem query_row_bound_amended_witness :
    (({ limit := some 5 } : QueryParams).limit = some 5) ∧ ((0 : Int) ≤ 5) ∧
    ((query_dataset synthDemoDataset [] { limit := some 5 } {} {}
        (fun _ _ => ("v"))).result
      = Except.ok ⟨(List.range 5).map (fun _ => PyRow.record [(("c"), ("v"))]),
          [(("c"), ("string"))], 5⟩) ∧
    ((((5 : Nat) : Int) ≤ 5) ∧
      (csvTypes.contains synthDemoDataset.connector_type = false →
       liveTypes.contains synthDemoDataset.connector_type = false →
       (5 : Nat) ≤ 1000)) := by
  refine ⟨rfl, by decide, by rfl, ?_⟩
  exact query_row_bound_amended synthDemoDataset [] { limit := some 5 } {} {}
    (fun _ _ => ("v")) 5
    ⟨(List.range 5).map (fun _ => PyRow.record [(("c"), ("v"))]),
      [(("c"), ("string"))], 5⟩ rfl (by decide) (by rfl)

/-- C2: `fetch_and_cache_schema` on a dataset whose schema is already populated
(non-empty table list, no placeholder message) is a no-op: it performs zero
connector constructions and zero connector calls and leaves the dataset and the
`Table` records unchanged, so a second call after a successful fetch does nothing. -/
theorem fetch_schema_idempotent :
    ∀ d tbls oracle, schemaPopulated d = true →
      fetch_and_cache_schema d tbls oracle = ⟨d, tbls, Except.ok (), 0, 0⟩ := by
  intro d tbls oracle h
  simp [fetch_and_cache_schema, h]

/-- C2 witness: the no-op on a concrete dataset with a cached schema. -/
theorem fetch_schema_idempotent_witness :
    schemaPopulated liveDemoDataset = true ∧
    fetch_and_cache_schema liveDemoDataset [] {}
      = ⟨liveDemoDataset, [], Except.ok (), 0, 0⟩ :=
  ⟨by decide, fetch_schema_idempotent liveDemoDataset [] {} (by decide)⟩

/-- C3 counterexample: PostgreSQL is an implemented connector, yet when its schema
fetch fails at registration time, `_create_sample_schema` silently substitutes the
fabricated non-empty sample schema and marks the dataset READY instead of
surfacing the error. -/
theorem sample_schema_fallback_counterexample :
    implementedTypes.contains ConnectorType.postgresql = true ∧
    (create_sample_schema unpopulatedLiveDataset [] .postgresql errOracle).result
      = Except.ok () ∧
    (create_sample_schema unpopulatedLiveDataset [] .postgresql errOracle).dataset.status
      = DatasetStatus.ready ∧
    (create_sample_schema unpopulatedLiveDataset [] .postgresql errOracle).dataset.schema_json
      = some (sampleSchemas .postgresql) ∧
    (sampleSchemas .postgresql).tables ≠ [] := by
  refine ⟨by decide, rfl, by decide, by decide, by decide⟩

/-- C3 (amended): at registration time a schema-fetch failure is replaced by the
fabricated sample schema and the dataset is marked READY for every connector type,
implemented ones included; only the query-time path (`fetch_and_cache_schema`)
surfaces a fetch failure as an error with `status = ERROR`. -/
theorem sample_schema_fallback_amended :
    (∀ d tbls ct oracle e, oracle.error = some e →
       (create_sample_schema d tbls ct oracle).result = Except.ok () ∧
       (create_sample_schema d tbls ct oracle).dataset.status = DatasetStatus.ready ∧
       (create_sample_schema d tbls ct oracle).dataset.schema_json
         = some (sampleSchemas ct))
    ∧ (∀ d tbls oracle e, schemaPopulated d = false → oracle.error = some e →
       ∃ m, (fetch_and_cache_schema d tbls oracle).result = Except.error m ∧
         (fetch_and_cache_schema d tbls oracle).dataset.status = DatasetStatus.error) := by
  constructor
  · intro d tbls ct oracle e he
    cases hcc : create_connector ct d.connector_config with
    | error e2 => simp [create_sample_schema, hcc, he]
    | ok c => simp [create_sample_schema, hcc, he]
  · intro d tbls oracle e hp he
    cases hcc : create_connector d.connector_type d.connector_config with
    | error e2 => exact ⟨e2, by simp [fetch_and_cache_schema, hp, hcc]⟩
    | ok c =>
      exact ⟨("Failed to fetch schema: ") ++ e,
        by simp [fetch_and_cache_schema, hp, hcc, he]⟩

/-- C3 witness: both amended parts at a concrete failing oracle (MySQL fallback at
registration, error surfaced at query time). -/
theorem sample_schema_fallback_amended_witness :
    (errOracle.error = some ("connection refused")) ∧
    ((create_sample_schema unpopulatedLiveDataset [] ConnectorType.mysql errOracle).result
        = Except.ok () ∧
      (create_sample_schema unpopulatedLiveDataset []
          ConnectorType.mysql errOracle).dataset.status
        = DatasetStatus.ready ∧
      (create_sample_schema unpopulatedLiveDataset []
          ConnectorType.mysql errOracle).dataset.schema_json
        = some (sampleSchemas ConnectorType.mysql)) ∧
    (schemaPopulated unpopulatedLiveDataset = false ∧
      ∃ m, (fetch_and_cache_schema unpopulatedLiveDataset [] errOracle).result
          = Except.error m ∧
        (fetch_and_cache_schema unpopulatedLiveDataset [] errOracle).dataset.status
          = DatasetStatus.error) :=
  ⟨rfl,
   sample_schema_fallback_amended.1 unpopulatedLiveDataset [] ConnectorType.mysql errOracle
     ("connection refused") rfl,
   by decide,
   sample_schema_fallback_amended.2 unpopulatedLiveDataset [] errOracle
     ("connection refused") (by decide) rfl⟩

/-- C4: every failing `fetch_and_cache_schema` leaves the dataset with
`status = ERROR` and records the propagated message (under the
`Failed to fetch schema:` prefix) in `error_message`; and `query_dataset` on a
dataset already in the ERROR state fails fast with the stored message, touching no
connector (zero constructions, zero calls) and mutating nothing. -/
theorem fetch_error_recorded_query_fail_fast :
    (∀ d tbls oracle m,
       (fetch_and_cache_schema d tbls oracle).result = Except.error m →
       (fetch_and_cache_schema d tbls oracle).dataset.status = DatasetStatus.error ∧
       (fetch_and_cache_schema d tbls oracle).dataset.error_message
         = some (("Failed to fetch schema: ") ++ m))
    ∧ (∀ d tbls p oracle live gen, d.status = DatasetStatus.error →
       query_dataset d tbls p oracle live gen
         = ⟨Except.error (("Dataset is in error state: ") ++ pyOrUnknown d.error_message),
             d, tbls, 0, 0⟩) := by
  constructor
  · intro d tbls oracle m h
    by_cases hp : schemaPopulated d
    · simp [fetch_and_cache_schema, hp] at h
    · cases hcc : create_connector d.connector_type d.connector_config with
      | error e =>
        simp_all [fetch_and_cache_schema, hp, hcc]
      | ok c =>
        cases ho : oracle.error with
        | some err =>
          simp_all [fetch_and_cache_schema, hp, hcc, ho]
        | none =>
          by_cases ht : oracle.tables.isEmpty
          · simp_all [fetch_and_cache_schema, hp, hcc, ho, ht]
          · simp [fetch_and_cache_schema, hp, hcc, ho, ht] at h
  · intro d tbls p oracle live gen h
    simp [query_dataset, h]

/-- C4 witness: a concrete failing fetch records the error, and a concrete query
on an ERROR dataset fails fast. -/
theorem fetch_error_recorded_query_fail_fast_witness :
    ((fetch_and_cache_schema unpopulatedLiveDataset [] errOracle).result
        = Except.error (("Failed to fetch schema: ") ++ ("connection refused")) ∧
      (fetch_and_cache_schema unpopulatedLiveDataset [] errOracle).dataset.status
        = DatasetStatus.error ∧
      (fetch_and_cache_schema unpopulatedLiveDataset [] errOracle).dataset.error_message
        = some (("Failed to fetch schema: ")
            ++ (("Failed to fetch schema: ") ++ ("connection refused")))) ∧
    (errDemoDataset.status = DatasetStatus.error ∧
      query_dataset errDemoDataset [] {} {} {} (fun _ _ => ("x"))
        = ⟨Except.error (("Dataset is in error state: ")
              ++ pyOrUnknown errDemoDataset.error_message),
            errDemoDataset, [], 0, 0⟩) := by
  have h1 := fetch_error_recorded_query_fail_fast.1 unpopulatedLiveDataset [] errOracle
    (("Failed to fetch schema: ") ++ ("connection refused")) (by rfl)
  have h2 := fetch_error_recorded_query_fail_fast.2 errDemoDataset [] {} {} {}
    (fun _ _ => ("x")) (by rfl)
  exact ⟨⟨by rfl, h1.1, h1.2⟩, ⟨by rfl, h2⟩⟩

/-- C5: ingesting a CSV with header row `id, name, score` and data rows
`1, Alice, 9.5` and `2, Bob, 7` yields exactly one table with columns typed
integer / string / decimal in that order, `row_count = 2`, and status READY. -/
theorem csv_registration_example :
    (process_csv_data csvDemoDataset [("id"), ("name"), ("score")]
        [[("1"), ("Alice"), ("9.5")], [("2"), ("Bob"), ("7")]]).dataset.schema_json
      = some { tables :=
          [{ name := ("scores"), displayName := ("scores"),
             columns :=
               [{ name := ("id"), type := ("integer"), nullable := true,
                  description := ("Integer column") },
                { name := ("name"), type := ("string"), nullable := true,
                  description := ("String column") },
                { name := ("score"), type := ("decimal"), nullable := true,
                  description := ("Decimal column") }],
             rowCount := 2 }], message := none }
    ∧ (process_csv_data csvDemoDataset [("id"), ("name"), ("score")]
        [[("1"), ("Alice"), ("9.5")], [("2"), ("Bob"), ("7")]]).dataset.row_count = some 2
    ∧ (process_csv_data csvDemoDataset [("id"), ("name"), ("score")]
        [[("1"), ("Alice"), ("9.5")], [("2"), ("Bob"), ("7")]]).dataset.status
      = DatasetStatus.ready := by
  refine ⟨?_, ?_, ?_⟩ <;> decide

/-- C6 counterexample: the column `["1", "0.0"]` is a mix of an integer literal
and a decimal literal, every value parses as a float, one value contains a decimal
point and not all are exact integers, yet the inferred type is `string` (not
`decimal`): `0.0` is numerically zero, so Python truthiness falsifies both
`all(... and float(v))` checks, and the mix then fails the boolean and date checks
too. -/
theorem infer_mixed_zero_counterexample :
    sample_values [[("1")], [("0.0")]] 0 = [("1"), ("0.0")] ∧
    ([("1"), ("0.0")]).all (fun v => (pyFloatTruthy v).isSome) = true ∧
    ([("1"), ("0.0")]).any (fun v => strHasChar v '.') = true ∧
    ¬(([("1"), ("0.0")]).all pyIntCanon = true) ∧
    infer_column_type [[("1")], [("0.0")]] 0 = ("string") := by
  refine ⟨?_, ?_, ?_, ?_, ?_⟩ <;> decide

/-- C6 (amended): a column whose non-blank values all parse as exact (canonical)
integer literals, with at least one such value, infers `integer`; a column whose
non-blank values all parse as nonzero floats, at least one containing a decimal
point and not all exact integers, infers `decimal` (values that parse to the float
zero escape both decimal checks and fall through towards `string`). -/
theorem infer_integer_decimal_amended :
    (∀ rows i, sample_values rows i ≠ [] →
       (∀ v ∈ sample_values rows i, pyIntCanon v = true) →
       infer_column_type rows i = ("integer"))
    ∧ (∀ rows i,
       (∀ v ∈ sample_values rows i, pyFloatTruthy v = some true) →
       (∃ v ∈ sample_values rows i, strHasChar v '.' = true) →
       ¬(∀ v ∈ sample_values rows i, pyIntCanon v = true) →
       infer_column_type rows i = ("decimal")) := by
  constructor
  · intro rows i hne hall
    have hrows : rows.isEmpty = false := by
      cases rows with
      | nil => simp [sample_values] at hne
      | cons a l => rfl
    have hvs : (sample_values rows i).isEmpty = false := by
      cases hsv : sample_values rows i with
      | nil => exact absurd hsv hne
      | cons a l => rfl
    have hallb : (sample_values rows i).all pyIntCanon = true :=
      List.all_eq_true.mpr hall
    simp [infer_column_type, hrows, hvs, hallb]
  · intro rows i hfl hdot hnint
    have hne : sample_values rows i ≠ [] := by
      rcases hdot with ⟨v, hv, _⟩
      intro h
      rw [h] at hv
      exact absurd hv (List.not_mem_nil v)
    have hrows : rows.isEmpty = false := by
      cases rows with
      | nil => simp [sample_values] at hne
      | cons a l => rfl
    have hvs : (sample_values rows i).isEmpty = false := by
      cases hsv : sample_values rows i with
      | nil => exact absurd hsv hne
      | cons a l => rfl
    have hint : (sample_values rows i).all pyIntCanon = false := by
      cases hc : (sample_values rows i).all pyIntCanon with
      | false => rfl
      | true => exact absurd (List.all_eq_true.mp hc) hnint
    have hnum : ((sample_values rows i).all
        (fun v => pyFloatTruthy v == some true)) = true := by
      apply List.all_eq_true.mpr
      intro v hv
      simp [hfl v hv]
    by_cases hdec : ((sample_values rows i).all
        (fun v => strHasChar v '.' && pyFloatTruthy v == some true)) = true
    · simp [infer_column_type, hrows, hvs, hint, hdec]
    · have hdec2 : ((sample_values rows i).all
          (fun v => strHasChar v '.' && pyFloatTruthy v == some true)) = false :=
        Bool.eq_false_iff.mpr hdec
      simp [infer_column_type, hrows, hvs, hint, hdec2, hnum]

/-- C6 witness: the amended rules applied to an all-integer column and to a mixed
integer/decimal column with no zero values. -/
theorem infer_integer_decimal_amended_witness :
    (sample_values [[("3")], [("4")]] 0 ≠ [] ∧
      infer_column_type [[("3")], [("4")]] 0 = ("integer")) ∧
    infer_column_type [[("1.5")], [("2")]] 0 = ("decimal") :=
  ⟨⟨by decide, infer_integer_decimal_amended.1 [[("3")], [("4")]] 0 (by decide) (by decide)⟩,
   infer_integer_decimal_amended.2 [[("1.5")], [("2")]] 0 (by decide) (by decide) (by decide)⟩

/-- C7: evaluating `delete_dataset` at a dataset that owns a dependent `Table`
row: the bulk delete violates the foreign key, so the call returns `False` and
removes nothing (neither dataset nor tables), contradicting the documented
cascade of the deletion. -/
theorem delete_dataset_fk_violation :
    delete_dataset demoState 1 = (false, demoState) ∧ demoState.tables ≠ [] :=
  ⟨rfl, by decide⟩

/-- C8: `create_connector` returns a connector instance exactly for the types in
the factory registry and raises the unsupported-type `ValueError` for every other
type; both outcomes are produced by a pure dict lookup and pure constructors, with
zero network or file operations. -/
theorem create_connector_registry :
    ∀ ct cfg,
      (ct ∈ factoryTypes → ∃ c, create_connector ct cfg = Except.ok c) ∧
      (ct ∉ factoryTypes →
        create_connector ct cfg
          = Except.error (("Unsupported connector type: ConnectorType.") ++ ct.pyName)) ∧
      create_connector_io ct cfg = 0 := by
  intro ct cfg
  refine ⟨?_, ?_, rfl⟩ <;> cases ct <;> intro h <;>
    first
      | exact ⟨_, rfl⟩
      | exact absurd h (by decide)
      | rfl

/-- C8 witness: BigQuery is unregistered and errors; PostgreSQL is registered and
yields an instance. -/
theorem create_connector_registry_witness :
    (ConnectorType.bigquery ∉ factoryTypes) ∧
    create_connector ConnectorType.bigquery {}
      = Except.error (("Unsupported connector type: ConnectorType.")
          ++ ConnectorType.pyName ConnectorType.bigquery) ∧
    (ConnectorType.postgresql ∈ factoryTypes) ∧
    (∃ c, create_connector ConnectorType.postgresql {} = Except.ok c) :=
  ⟨by decide, (create_connector_registry ConnectorType.bigquery {}).2.1 (by decide),
   by decide, (create_connector_registry ConnectorType.postgresql {}).1 (by decide)⟩

/-- C9 counterexample: refreshing a live (PostgreSQL) dataset that still holds the
deferred-schema placeholder performs zero connector operations and leaves the
cached schema unchanged - no PROCESSING re-entry and no schema re-discovery
happen, refuting the claimed live-source refresh semantics. -/
theorem refresh_no_rediscovery_counterexample :
    liveTypes.contains placeholderLiveDataset.connector_type = true ∧
    (refresh_dataset 5 placeholderLiveDataset).2 = 0 ∧
    (refresh_dataset 5 placeholderLiveDataset).1.schema_json
      = placeholderLiveDataset.schema_json :=
  ⟨by decide, rfl, rfl⟩

/-- C9 (amended): for every dataset - live-connection and file-backed alike -
refresh only bumps the refresh timestamp and forces status READY, performing zero
connector operations and leaving the cached schema (and everything else)
unchanged. -/
theorem refresh_timestamp_only :
    ∀ now d, refresh_dataset now d
      = ({ d with last_refresh := some now, status := DatasetStatus.ready }, 0) :=
  fun _ _ => rfl

/-- C10: successful CSV ingestion stores a preview of at most 10 rows, and every
successful `query_dataset` call on a CSV-backed dataset whose stored sample
respects that invariant returns at most 10 rows, whatever limit is requested. -/
theorem csv_preview_bound :
    (∀ d headers rows, (process_csv_data d headers rows).result = Except.ok () →
        ((process_csv_data d headers rows).dataset.sample_rows.getD []).length ≤ 10)
    ∧ (∀ d tbls p oracle live gen res,
        csvTypes.contains d.connector_type = true →
        (d.sample_rows.getD []).length ≤ 10 →
        (query_dataset d tbls p oracle live gen).result = Except.ok res →
        res.total_rows ≤ 10) := by
  constructor
  · intro d headers rows h
    by_cases hh : headers.isEmpty
    · simp [process_csv_data, hh] at h
    · simp only [process_csv_data, hh, Bool.false_eq_true, if_false]
      simp [List.length_take]
  · intro d tbls p oracle live gen res hcsv hlen h
    by_cases hst : d.status = DatasetStatus.error
    · simp [query_dataset, hst] at h
    · have hmem : d.connector_type ∈ csvTypes := by simpa using hcsv
      have h2 : csv_query d p = Except.ok res := by
        simpa [query_dataset, hst, hmem] using h
      exact le_trans (csv_query_total_le d p res h2) hlen

/-- C10 witness: a concrete two-row ingestion and a concrete query on the
resulting dataset. -/
theorem csv_preview_bound_witness :
    ((process_csv_data csvDemoDataset [("a")] [[("1")], [("2")]]).result = Except.ok () ∧
      ((process_csv_data csvDemoDataset [("a")] [[("1")],
        [("2")]]).dataset.sample_rows.getD []).length ≤ 10) ∧
    (csvTypes.contains csvReadyDataset.connector_type = true ∧
      (csvReadyDataset.sample_rows.getD []).length ≤ 10 ∧
      (query_dataset csvReadyDataset [] {} {} {} (fun _ _ => ("x"))).result
        = Except.ok ⟨[PyRow.strs [("1")], PyRow.strs [("2")]], [(("a"), ("integer"))], 2⟩ ∧
      (2 : Nat) ≤ 10) := by
  refine ⟨⟨rfl, csv_preview_bound.1 csvDemoDataset [("a")] [[("1")], [("2")]] rfl⟩,
          by decide, by decide, by rfl, ?_⟩
  exact csv_preview_bound.2 csvReadyDataset [] {} {} {} (fun _ _ => ("x"))
    ⟨[PyRow.strs [("1")], PyRow.strs [("2")]], [(("a"), ("integer"))], 2⟩
    (by decide) (by decide) (by rfl)

end Syntrabi
